import Mathlib

/-!
Shallow embedding of the SophT-Simulator Lagrangian-Eulerian coupling slice:
`sopht_simulator/immersed_body/cosserat_rod/cosserat_rod_flow_interaction.py`
and the driver `examples/3d_examples/FlowPastSphereCase/flow_past_sphere_case.py`.

Numpy 2-D arrays of floats are modelled as `List (List ℚ)` (row-major), so that
shape facts are provable properties rather than typing artefacts. The body
force/torque accumulators additionally carry a dtype, because `np.zeros`
called without a `dtype` argument allocates `float64` regardless of the
configured precision. Python's in-place full-slice assignment
`a[...] = b` is modelled as replacing the contents when the shapes agree and
failing otherwise, and the mutation of `self.cosserat_rod` is made explicit
by state passing: each operation returns the rod state it leaves behind.
-/

/-- A 2-D numpy array of floats, row-major: row index is the spatial
dimension (3 rows), column index is a node/element index. -/
abbrev Mat : Type := List (List ℚ)

/-- Numpy dtypes that occur in the translated code. -/
inductive DType : Type
  | float32
  | float64
deriving DecidableEq

/-- A numpy array with its shape and dtype tracked, used for the
`body_flow_forces` / `body_flow_torques` accumulators. -/
structure NDArray : Type where
  shape : List ℕ
  dtype : DType
  data : List ℚ
deriving DecidableEq

/-- Embedding of `np.zeros(shape)` with NO dtype argument: numpy's default
dtype is `float64`, whatever precision the caller configured elsewhere. -/
def np_zeros (shape : List ℕ) : NDArray :=
  { shape := shape, dtype := DType.float64, data := List.replicate shape.prod 0 }

/-- Embedding of `np.zeros((r, c))` when only the 2-D float contents matter. -/
def np_zeros_mat (r c : ℕ) : Mat :=
  List.replicate r (List.replicate c 0)

/-- One row of `0.5 * (xs[1:] + xs[:-1])`: consecutive pairwise midpoints. -/
def row_midpoints : List ℚ → List ℚ
  | [] => []
  | [_] => []
  | x :: y :: rest => 0.5 * (y + x) :: row_midpoints (y :: rest)

/-- The right-hand side of `update_rod_element_position`:
`0.5 * (position_collection[..., 1:] + position_collection[..., :-1])`. -/
def element_position_of (position_collection : Mat) : Mat :=
  position_collection.map row_midpoints

/-- Python in-place full-slice assignment `lhs[...] = rhs`: the contents are
replaced but the allocated array keeps its shape, so both shapes must agree
(broadcasting of genuinely mismatched shapes is an error). -/
def slice_assign_all (lhs rhs : Mat) : Option Mat :=
  if lhs.map List.length = rhs.map List.length then some rhs else none

/-- The slice of the elastica `CosseratRod` state that the coupling code
touches: `n_elems`, the `(3, n_elems + 1)` node positions, and the
`element_position` attribute, which elastica rods do NOT carry (it is
`none` until `CosseratRodFlowInteraction.__init__` adds it). -/
structure CosseratRod : Type where
  n_elems : ℕ
  position_collection : Mat
  element_position : Option Mat
deriving DecidableEq

/-- A well-formed elastica rod: `position_collection` has 3 rows of
`n_elems + 1` node coordinates each. -/
def rod_well_formed (rod : CosseratRod) : Prop :=
  rod.position_collection.map List.length = List.replicate 3 (rod.n_elems + 1)

instance (rod : CosseratRod) : Decidable (rod_well_formed rod) := by
  unfold rod_well_formed; infer_instance

/-- Embedding of `CosseratRodFlowInteraction.update_rod_element_position`:
`self.cosserat_rod.element_position[...] = 0.5 * (pos[..., 1:] + pos[..., :-1])`.
The Python method returns `None` and mutates `self.cosserat_rod` in place;
here the mutated rod state is returned (`none` when the attribute is absent
or the in-place assignment's shapes mismatch). -/
def update_rod_element_position (rod : CosseratRod) : Option CosseratRod :=
  (rod.element_position.bind fun ep =>
    slice_assign_all ep (element_position_of rod.position_collection)).map
    fun ep' => { rod with element_position := some ep' }

/-- Entry `m[r, c]` of a 2-D array, when present. -/
def mat_entry (m : Mat) (r c : ℕ) : Option ℚ :=
  m[r]?.bind fun row => row[c]?

/-- Entry `(r, c)` of the rod's `element_position` attribute, when present. -/
def rod_element_entry (rod : CosseratRod) (r c : ℕ) : Option ℚ :=
  rod.element_position.bind fun ep => mat_entry ep r c

/-- Construction-time failures of the flow-interaction engine. -/
inductive FlowInteractionError : Type
  | configurationError
  | shapeMismatch
deriving DecidableEq

/-- Modelled from the spec: the superclass
`ImmersedBodyFlowInteraction.__init__` (in `sopht_simulator/immersed_body/`,
not under `src/`) validates the virtual-boundary coupling coefficients at
construction: stiffness and damping must both be non-positive, and a sign
violation is reported as a `ConfigurationError` rather than silently
accepted. -/
def immersed_body_flow_interaction_sign_check
    (virtual_boundary_stiffness_coeff virtual_boundary_damping_coeff : ℚ) :
    Except FlowInteractionError Unit :=
  if 0 < virtual_boundary_stiffness_coeff ∨
      0 < virtual_boundary_damping_coeff then
    Except.error FlowInteractionError.configurationError
  else
    Except.ok ()

/-- The state of a `CosseratRodFlowInteraction` instance after `__init__`:
the (mutated) rod it holds via `self.cosserat_rod`, the two body-level
accumulators, the coupling coefficients, and the configured precision. The
forcing-grid object and the Eulerian field references are not needed by any
claim and are omitted. -/
structure CosseratRodFlowInteraction : Type where
  cosserat_rod : CosseratRod
  body_flow_forces : NDArray
  body_flow_torques : NDArray
  virtual_boundary_stiffness_coeff : ℚ
  virtual_boundary_damping_coeff : ℚ
  real_t : DType
deriving DecidableEq

/-- Embedding of `CosseratRodFlowInteraction.__init__`, in source order:
allocate `body_flow_forces = np.zeros((3, n_elems + 1))` and
`body_flow_torques = np.zeros((3, n_elems))` (no dtype argument, so numpy's
default `float64` applies, independent of `real_t`); store the rod on
`self`; add the attribute `self.cosserat_rod.element_position` as
`np.zeros((3, n_elems))`; call `update_rod_element_position()`; finally run
the superclass initialiser (of which only the spec-modelled coefficient
sign check is relevant here). -/
def cosserat_rod_flow_interaction_init (cosserat_rod : CosseratRod)
    (virtual_boundary_stiffness_coeff virtual_boundary_damping_coeff : ℚ)
    (real_t : DType) :
    Except FlowInteractionError CosseratRodFlowInteraction :=
  let body_flow_forces := np_zeros [3, cosserat_rod.n_elems + 1]
  let body_flow_torques := np_zeros [3, cosserat_rod.n_elems]
  let rod_with_grid : CosseratRod :=
    { cosserat_rod with
      element_position := some (np_zeros_mat 3 cosserat_rod.n_elems) }
  match update_rod_element_position rod_with_grid with
  | none => Except.error FlowInteractionError.shapeMismatch
  | some rod_updated =>
    match immersed_body_flow_interaction_sign_check
        virtual_boundary_stiffness_coeff virtual_boundary_damping_coeff with
    | Except.error e => Except.error e
    | Except.ok _ =>
      Except.ok
        { cosserat_rod := rod_updated
          body_flow_forces := body_flow_forces
          body_flow_torques := body_flow_torques
          virtual_boundary_stiffness_coeff :=
            virtual_boundary_stiffness_coeff
          virtual_boundary_damping_coeff := virtual_boundary_damping_coeff
          real_t := real_t }

/-- Repeated in-place kinematic updates: `n` successive calls of
`update_rod_element_position` on the rod state. -/
def iterate_update_rod_element_position : ℕ → CosseratRod → Option CosseratRod
  | 0, rod => some rod
  | n + 1, rod =>
    (update_rod_element_position rod).bind
      (iterate_update_rod_element_position n)

/-- The events of one iteration of the `while t < t_end` driver loop in
`flow_past_sphere_case`, in source order: the optional diagnostics block
(drag recording, plotting, printing, guarded by the foto timer), then
`dt = flow_sim.compute_stable_timestep(...)`,
`sphere_flow_interactor.time_step(dt=dt)`, the apply call
`sphere_flow_interactor()`, `flow_sim.time_step(...)`, and the timer
updates. -/
inductive DriverEvent : Type
  | diagnosticsOutput
  | computeStableTimestep
  | interactorTimeStep
  | interactorApply
  | flowSimTimeStep
  | updateTimers
deriving DecidableEq

/-- One iteration of the driver loop body; `diagnostics_due` is the value of
`foto_timer > foto_timer_limit or foto_timer == 0` at that iteration. -/
def flow_past_sphere_loop_body (diagnostics_due : Bool) : List DriverEvent :=
  (if diagnostics_due then [DriverEvent.diagnosticsOutput] else []) ++
    [DriverEvent.computeStableTimestep, DriverEvent.interactorTimeStep,
      DriverEvent.interactorApply, DriverEvent.flowSimTimeStep,
      DriverEvent.updateTimers]

/-- Fluid density `rho_f = 1.0` in `flow_past_sphere_case`. -/
def rho_f : ℚ := 1

/-- Free-stream speed `far_field_velocity = 1.0` in `flow_past_sphere_case`. -/
def far_field_velocity : ℚ := 1

/-- `sphere_projected_area = 0.25 * np.pi * sphere_diameter**2`; the numpy
constant `np.pi` is passed in as `pi_val`. -/
def sphere_projected_area (pi_val sphere_diameter : ℚ) : ℚ :=
  0.25 * pi_val * sphere_diameter ^ 2

/-- `drag_force_scale = 0.5 * rho_f * far_field_velocity**2 *
sphere_projected_area`. -/
def drag_force_scale (pi_val sphere_diameter : ℚ) : ℚ :=
  0.5 * rho_f * far_field_velocity ^ 2 *
    sphere_projected_area pi_val sphere_diameter

/-- `np.sum(sphere_flow_interactor.lag_grid_forcing_field[x_axis, ...])`
with `x_axis = 0`: the sum of the first row (the x components over all
Lagrangian markers) of the forcing field. -/
def lag_grid_forcing_x_sum (lag_grid_forcing_field : List (List ℚ)) : ℚ :=
  (lag_grid_forcing_field.headD []).sum

/-- `drag_force = np.fabs(np.sum(lag_grid_forcing_field[x_axis, ...]))`. -/
def drag_force (lag_grid_forcing_field : List (List ℚ)) : ℚ :=
  |lag_grid_forcing_x_sum lag_grid_forcing_field|

/-- `drag_coeff = drag_force / drag_force_scale`, the value appended to
`drag_coeffs` by the driver. -/
def drag_coeff (pi_val sphere_diameter : ℚ)
    (lag_grid_forcing_field : List (List ℚ)) : ℚ :=
  drag_force lag_grid_forcing_field /
    drag_force_scale pi_val sphere_diameter

/-- The drag coefficient as the claim words it: the absolute sum of the
forcing field's x components divided by the dynamic-pressure scale
`0.5 * rho_f * far_field_velocity^2 * (0.25 * pi * sphere_diameter^2)`. -/
def drag_coeff_claimed (pi_val sphere_diameter : ℚ)
    (lag_grid_forcing_field : List (List ℚ)) : ℚ :=
  |(lag_grid_forcing_field.headD []).sum| /
    (0.5 * rho_f * far_field_velocity ^ 2 *
      (0.25 * pi_val * sphere_diameter ^ 2))

/-- Modelled from the spec: the per-marker penalty (feedback) forcing law of
the virtual boundary method, implemented by the `sopht` backend's virtual
boundary forcing operators (not under `src/`):
`marker_forcing = stiffness * displacement_error
 + damping * (marker_velocity - interpolated_velocity)`. -/
def marker_penalty_forcing (stiffness damping : ℚ)
    (displacement_error marker_velocity interpolated_velocity :
      Fin 3 → ℚ) : Fin 3 → ℚ :=
  fun k =>
    stiffness * displacement_error k +
      damping * (marker_velocity k - interpolated_velocity k)

/-- A concrete fresh elastica rod: one element, nodes at x = 0 and x = 1,
and NO `element_position` attribute yet. -/
def sample_fresh_rod : CosseratRod :=
  { n_elems := 1
    position_collection := [[0, 1], [0, 0], [0, 0]]
    element_position := none }

/-- A concrete rod state that already carries an `element_position`
attribute (holding stale values). -/
def sample_rod : CosseratRod :=
  { n_elems := 2
    position_collection := [[0, 1, 2], [0, 2, 4], [0, 0, 6]]
    element_position := some [[9, 9], [9, 9], [9, 9]] }

/-- `sample_rod` after one `update_rod_element_position` call. -/
def sample_rod_updated : CosseratRod :=
  { n_elems := 2
    position_collection := [[0, 1, 2], [0, 2, 4], [0, 0, 6]]
    element_position := some [[0.5, 1.5], [1, 3], [0, 3]] }

/-- The flow-interaction state produced by constructing on
`sample_fresh_rod` with coefficients -1, -1 and `real_t = float64`. -/
def sample_interaction : CosseratRodFlowInteraction :=
  { cosserat_rod :=
      { n_elems := 1
        position_collection := [[0, 1], [0, 0], [0, 0]]
        element_position := some [[0.5], [0], [0]] }
    body_flow_forces := np_zeros [3, 2]
    body_flow_torques := np_zeros [3, 1]
    virtual_boundary_stiffness_coeff := -1
    virtual_boundary_damping_coeff := -1
    real_t := DType.float64 }

/-- As `sample_interaction`, but constructed with `real_t = np.float32`
(single precision). -/
def sample_interaction_f32 : CosseratRodFlowInteraction :=
  { sample_interaction with real_t := DType.float32 }

theorem row_midpoints_length (xs : List ℚ) :
    (row_midpoints xs).length = xs.length - 1 := by
  induction xs using row_midpoints.induct with
  | case1 => simp [row_midpoints]
  | case2 a => simp [row_midpoints]
  | case3 x y rest ih =>
    simp only [row_midpoints, List.length_cons, ih]
    omega

theorem row_midpoints_getElem? (xs : List ℚ) (i : ℕ) (x y : ℚ)
    (hx : xs[i]? = some x) (hy : xs[i + 1]? = some y) :
    (row_midpoints xs)[i]? = some (0.5 * (y + x)) := by
  induction xs using row_midpoints.induct generalizing i with
  | case1 => simp at hx
  | case2 a => simp at hy
  | case3 a b rest ih =>
    cases i with
    | zero =>
      simp only [List.getElem?_cons_zero, Option.some.injEq] at hx
      simp only [List.getElem?_cons_succ, List.getElem?_cons_zero,
        Option.some.injEq] at hy
      simp [row_midpoints, hx, hy]
    | succ n =>
      simp only [List.getElem?_cons_succ] at hx hy
      simpa [row_midpoints] using ih n hx (by simp [hy])

theorem element_position_of_map_length (pos : Mat) :
    (element_position_of pos).map List.length =
      (pos.map List.length).map (· - 1) := by
  unfold element_position_of
  induction pos with
  | nil => simp
  | cons row rest ih => simp [row_midpoints_length, ih]

theorem slice_assign_all_eq_some (a b c : Mat) :
    slice_assign_all a b = some c ↔
      a.map List.length = b.map List.length ∧ c = b := by
  unfold slice_assign_all
  by_cases h : a.map List.length = b.map List.length
  · simp [h, eq_comm]
  · simp [h]

theorem update_rod_element_position_inv (rod rod' : CosseratRod)
    (h : update_rod_element_position rod = some rod') :
    rod'.n_elems = rod.n_elems ∧
    rod'.position_collection = rod.position_collection ∧
    rod'.element_position =
      some (element_position_of rod.position_collection) ∧
    ∃ ep, rod.element_position = some ep ∧
      ep.map List.length =
        (element_position_of rod.position_collection).map List.length := by
  unfold update_rod_element_position at h
  rw [Option.map_eq_some'] at h
  obtain ⟨ep', hbind, hrod'⟩ := h
  rw [Option.bind_eq_some] at hbind
  obtain ⟨ep, hep, hassign⟩ := hbind
  rw [slice_assign_all_eq_some] at hassign
  subst hrod'
  exact ⟨rfl, rfl, by rw [hassign.2], ep, hep, hassign.1⟩

theorem update_rod_element_position_of_shape (rod : CosseratRod) (ep : Mat)
    (h1 : rod.element_position = some ep)
    (h2 : ep.map List.length =
      (element_position_of rod.position_collection).map List.length) :
    update_rod_element_position rod =
      some { rod with
        element_position :=
          some (element_position_of rod.position_collection) } := by
  unfold update_rod_element_position
  rw [h1]
  simp [slice_assign_all, h2]

theorem np_zeros_mat_map_length (r c : ℕ) :
    (np_zeros_mat r c).map List.length = List.replicate r c := by
  simp [np_zeros_mat]

theorem element_position_of_shape (rod : CosseratRod)
    (hwf : rod_well_formed rod) :
    (element_position_of rod.position_collection).map List.length =
      List.replicate 3 rod.n_elems := by
  rw [element_position_of_map_length, hwf]
  simp

theorem cosserat_rod_flow_interaction_init_inv (rod : CosseratRod)
    (s d : ℚ) (t : DType) (fi : CosseratRodFlowInteraction)
    (h : cosserat_rod_flow_interaction_init rod s d t = Except.ok fi) :
    fi.cosserat_rod.n_elems = rod.n_elems ∧
    fi.cosserat_rod.position_collection = rod.position_collection ∧
    fi.cosserat_rod.element_position =
      some (element_position_of rod.position_collection) ∧
    (element_position_of rod.position_collection).map List.length =
      List.replicate 3 rod.n_elems ∧
    fi.body_flow_forces = np_zeros [3, rod.n_elems + 1] ∧
    fi.body_flow_torques = np_zeros [3, rod.n_elems] ∧
    fi.virtual_boundary_stiffness_coeff = s ∧
    fi.virtual_boundary_damping_coeff = d ∧
    fi.real_t = t ∧ s ≤ 0 ∧ d ≤ 0 := by
  simp only [cosserat_rod_flow_interaction_init] at h
  split at h
  · exact absurd h (by simp)
  next rodU hu =>
    split at h
    · exact absurd h (by simp)
    next u hsign =>
      rw [Except.ok.injEq] at h
      subst h
      simp only [immersed_body_flow_interaction_sign_check] at hsign
      by_cases hs : 0 < s ∨ 0 < d
      · rw [if_pos hs] at hsign
        exact absurd hsign (by simp)
      · push_neg at hs
        obtain ⟨h1, h2, h3, ep, hep, hshape⟩ :=
          update_rod_element_position_inv _ _ hu
        simp only at h1 h2 h3
        have hepz : ep = np_zeros_mat 3 rod.n_elems := by
          have := hep
          simp only [Option.some.injEq] at this
          exact this.symm
        subst hepz
        rw [np_zeros_mat_map_length] at hshape
        exact ⟨h1, h2, h3, hshape.symm, rfl, rfl, rfl, rfl, rfl,
          hs.1, hs.2⟩

theorem cosserat_rod_flow_interaction_init_succeeds (rod : CosseratRod)
    (hwf : rod_well_formed rod) (s d : ℚ) (t : DType)
    (hsign : ¬(0 < s ∨ 0 < d)) :
    cosserat_rod_flow_interaction_init rod s d t =
      Except.ok
        { cosserat_rod :=
            { rod with
              element_position :=
                some (element_position_of rod.position_collection) }
          body_flow_forces := np_zeros [3, rod.n_elems + 1]
          body_flow_torques := np_zeros [3, rod.n_elems]
          virtual_boundary_stiffness_coeff := s
          virtual_boundary_damping_coeff := d
          real_t := t } := by
  have hup := update_rod_element_position_of_shape
    { rod with element_position := some (np_zeros_mat 3 rod.n_elems) }
    (np_zeros_mat 3 rod.n_elems) rfl
    (by rw [np_zeros_mat_map_length]
        exact (element_position_of_shape rod hwf).symm)
  simp only [cosserat_rod_flow_interaction_init]
  rw [hup]
  simp [immersed_body_flow_interaction_sign_check, hsign]

theorem cosserat_rod_flow_interaction_init_error (rod : CosseratRod)
    (hwf : rod_well_formed rod) (s d : ℚ) (t : DType)
    (hsign : 0 < s ∨ 0 < d) :
    cosserat_rod_flow_interaction_init rod s d t =
      Except.error FlowInteractionError.configurationError := by
  have hup := update_rod_element_position_of_shape
    { rod with element_position := some (np_zeros_mat 3 rod.n_elems) }
    (np_zeros_mat 3 rod.n_elems) rfl
    (by rw [np_zeros_mat_map_length]
        exact (element_position_of_shape rod hwf).symm)
  simp only [cosserat_rod_flow_interaction_init]
  rw [hup]
  simp [immersed_body_flow_interaction_sign_check, hsign]

theorem iterate_update_shape (n : ℕ) (rod rodN : CosseratRod) (s : List ℕ)
    (h : iterate_update_rod_element_position n rod = some rodN)
    (hshape : ∃ ep, rod.element_position = some ep ∧
      ep.map List.length = s) :
    ∃ ep, rodN.element_position = some ep ∧ ep.map List.length = s := by
  induction n generalizing rod with
  | zero =>
    simp only [iterate_update_rod_element_position, Option.some.injEq] at h
    subst h
    exact hshape
  | succ k ih =>
    simp only [iterate_update_rod_element_position,
      Option.bind_eq_some] at h
    obtain ⟨rod1, h1, h2⟩ := h
    obtain ⟨hn, hp, hepos, ep, hep, hlen⟩ :=
      update_rod_element_position_inv _ _ h1
    obtain ⟨ep0, hep0, hlen0⟩ := hshape
    rw [hep0, Option.some.injEq] at hep
    subst hep
    exact ih rod1 h2 ⟨element_position_of rod.position_collection,
      hepos, by rw [← hlen, hlen0]⟩

theorem CosseratRod.ext_mk (a b : CosseratRod)
    (h1 : a.n_elems = b.n_elems)
    (h2 : a.position_collection = b.position_collection)
    (h3 : a.element_position = b.element_position) : a = b := by
  cases a
  cases b
  simp_all

/-- C1: for a flexible rod, `update_rod_element_position` recomputes every
element position as the midpoint of its two adjacent node positions:
whenever the rod's node positions hold `x` at node `i` and `y` at node
`i + 1` in dimension row `r`, the element-position array of the rod state
left behind by the (in-place, `None`-returning) update holds
`0.5 * (y + x)` at `[r, i]`. -/
theorem update_recomputes_element_midpoints (rod rod' : CosseratRod)
    (r i : ℕ) (x y : ℚ)
    (hup : update_rod_element_position rod = some rod')
    (hx : mat_entry rod.position_collection r i = some x)
    (hy : mat_entry rod.position_collection r (i + 1) = some y) :
    rod_element_entry rod' r i = some (0.5 * (y + x)) := by
  obtain ⟨hn, hp, hepos, -⟩ := update_rod_element_position_inv _ _ hup
  unfold rod_element_entry
  rw [hepos, Option.some_bind]
  unfold mat_entry at hx hy ⊢
  rw [Option.bind_eq_some] at hx hy
  obtain ⟨prow, hprow, hxi⟩ := hx
  obtain ⟨prow2, hprow2, hyi⟩ := hy
  rw [hprow, Option.some.injEq] at hprow2
  subst hprow2
  unfold element_position_of
  rw [List.getElem?_map, hprow, Option.map_some', Option.some_bind]
  exact row_midpoints_getElem? prow i x y hxi hyi

/-- Witness for C1: on `sample_rod`, element 1 in dimension 0 becomes the
midpoint of nodes 1 and 2. -/
theorem update_recomputes_element_midpoints_witness :
    rod_element_entry sample_rod_updated 0 1 = some (0.5 * ((2 : ℚ) + 1)) :=
  update_recomputes_element_midpoints sample_rod sample_rod_updated 0 1 1 2
    (by simp [update_rod_element_position, sample_rod, sample_rod_updated,
        element_position_of, row_midpoints, slice_assign_all]
        norm_num)
    (by decide) (by decide)

/-- C2: constructing `CosseratRodFlowInteraction` allocates the body force
accumulator with exactly one 3-vector per node — shape `(3, n_elems + 1)` —
and the body torque accumulator with exactly one 3-vector per element —
shape `(3, n_elems)` — both initialised to zero. -/
theorem init_allocates_body_force_torque (rod : CosseratRod) (s d : ℚ)
    (t : DType) (fi : CosseratRodFlowInteraction)
    (h : cosserat_rod_flow_interaction_init rod s d t = Except.ok fi) :
    fi.body_flow_forces.shape = [3, rod.n_elems + 1] ∧
    fi.body_flow_forces.data = List.replicate (3 * (rod.n_elems + 1)) 0 ∧
    fi.body_flow_torques.shape = [3, rod.n_elems] ∧
    fi.body_flow_torques.data = List.replicate (3 * rod.n_elems) 0 := by
  obtain ⟨-, -, -, -, hf, ht, -, -, -, -, -⟩ :=
    cosserat_rod_flow_interaction_init_inv _ _ _ _ _ h
  rw [hf, ht]
  refine ⟨rfl, ?_, rfl, ?_⟩ <;> simp [np_zeros]

/-- Witness for C2 on `sample_fresh_rod` (one element, two nodes). -/
theorem init_allocates_body_force_torque_witness :
    sample_interaction.body_flow_forces.shape = [3, 2] ∧
    sample_interaction.body_flow_forces.data = List.replicate (3 * 2) 0 ∧
    sample_interaction.body_flow_torques.shape = [3, 1] ∧
    sample_interaction.body_flow_torques.data = List.replicate (3 * 1) 0 :=
  init_allocates_body_force_torque sample_fresh_rod (-1) (-1) DType.float64
    sample_interaction
    (by simp [cosserat_rod_flow_interaction_init, sample_fresh_rod,
        sample_interaction, update_rod_element_position, element_position_of,
        row_midpoints, slice_assign_all, np_zeros_mat, np_zeros,
        immersed_body_flow_interaction_sign_check]
        norm_num)

/-- C3 is FALSE on the code: constructing the engine does mutate the body.
`__init__` executes `self.cosserat_rod.element_position = np.zeros(...)`,
rebinding an attribute on the rod object, and `update_rod_element_position`
writes into it. Concretely: `sample_fresh_rod` carries no `element_position`
attribute, construction succeeds, and the rod held by the engine (the same
Python object) now differs from the rod that was passed in. -/
theorem rod_mutated_by_init_counterexample :
    sample_fresh_rod.element_position = none ∧
    cosserat_rod_flow_interaction_init sample_fresh_rod (-1) (-1)
        DType.float64 = Except.ok sample_interaction ∧
    sample_interaction.cosserat_rod ≠ sample_fresh_rod := by
  refine ⟨rfl, ?_, ?_⟩
  · simp [cosserat_rod_flow_interaction_init, sample_fresh_rod,
      sample_interaction, update_rod_element_position, element_position_of,
      row_midpoints, slice_assign_all, np_zeros_mat, np_zeros,
      immersed_body_flow_interaction_sign_check]
    norm_num
  · simp [sample_interaction, sample_fresh_rod]

/-- C3 (amended): the engine's reference to the rod is not fully read-only —
construction rebinds the rod's `element_position` attribute and the
kinematic update writes that array — but this is the only mutation: neither
construction nor `update_rod_element_position` modifies any other rod
state (`n_elems`, `position_collection`). -/
theorem rod_mutation_limited_to_element_position
    (rod rod2 rod2' : CosseratRod) (s d : ℚ) (t : DType)
    (fi : CosseratRodFlowInteraction)
    (h1 : cosserat_rod_flow_interaction_init rod s d t = Except.ok fi)
    (h2 : update_rod_element_position rod2 = some rod2') :
    fi.cosserat_rod.n_elems = rod.n_elems ∧
    fi.cosserat_rod.position_collection = rod.position_collection ∧
    rod2'.n_elems = rod2.n_elems ∧
    rod2'.position_collection = rod2.position_collection := by
  obtain ⟨a1, a2, -⟩ := cosserat_rod_flow_interaction_init_inv _ _ _ _ _ h1
  obtain ⟨b1, b2, -⟩ := update_rod_element_position_inv _ _ h2
  exact ⟨a1, a2, b1, b2⟩

/-- Witness for the amended C3 at concrete rod states. -/
theorem rod_mutation_limited_to_element_position_witness :
    sample_interaction.cosserat_rod.n_elems = sample_fresh_rod.n_elems ∧
    sample_interaction.cosserat_rod.position_collection =
      sample_fresh_rod.position_collection ∧
    sample_rod_updated.n_elems = sample_rod.n_elems ∧
    sample_rod_updated.position_collection =
      sample_rod.position_collection :=
  rod_mutation_limited_to_element_position sample_fresh_rod sample_rod
    sample_rod_updated (-1) (-1) DType.float64 sample_interaction
    (by simp [cosserat_rod_flow_interaction_init, sample_fresh_rod,
        sample_interaction, update_rod_element_position, element_position_of,
        row_midpoints, slice_assign_all, np_zeros_mat, np_zeros,
        immersed_body_flow_interaction_sign_check]
        norm_num)
    (by simp [update_rod_element_position, sample_rod, sample_rod_updated,
        element_position_of, row_midpoints, slice_assign_all]
        norm_num)

/-- C4: with the spec-modelled superclass validation, constructing the
engine with a stiffness or damping coefficient violating the non-positive
sign convention reports a `ConfigurationError`, while every construction on
a well-formed rod with non-positive stiffness and damping succeeds. -/
theorem coupling_sign_convention_validated (rod : CosseratRod) (s d : ℚ)
    (t : DType) (hwf : rod_well_formed rod) :
    ((0 < s ∨ 0 < d) →
      cosserat_rod_flow_interaction_init rod s d t =
        Except.error FlowInteractionError.configurationError) ∧
    (s ≤ 0 → d ≤ 0 →
      ∃ fi, cosserat_rod_flow_interaction_init rod s d t =
        Except.ok fi) := by
  constructor
  · intro hsign
    exact cosserat_rod_flow_interaction_init_error rod hwf s d t hsign
  · intro hs hd
    exact ⟨_, cosserat_rod_flow_interaction_init_succeeds rod hwf s d t
      (not_or.mpr ⟨not_lt.mpr hs, not_lt.mpr hd⟩)⟩

/-- Witness for C4: positive stiffness is rejected, non-positive
coefficients are accepted, on the same concrete rod. -/
theorem coupling_sign_convention_validated_witness :
    cosserat_rod_flow_interaction_init sample_fresh_rod 1 (-1)
        DType.float64 =
      Except.error FlowInteractionError.configurationError ∧
    ∃ fi, cosserat_rod_flow_interaction_init sample_fresh_rod (-1) (-1)
        DType.float64 = Except.ok fi :=
  ⟨(coupling_sign_convention_validated sample_fresh_rod 1 (-1)
      DType.float64 (by decide)).1 (Or.inl (by norm_num)),
   (coupling_sign_convention_validated sample_fresh_rod (-1) (-1)
      DType.float64 (by decide)).2 (by norm_num) (by norm_num)⟩

/-- C5: in every iteration of the `flow_past_sphere_case` driver loop
(whether or not the diagnostics block fires), the flow interactor's
`time_step(dt)` call and its apply call `sphere_flow_interactor()` each
occur exactly once, with `time_step` strictly before the apply call. -/
theorem interactor_calls_once_and_ordered (diagnostics_due : Bool) :
    (flow_past_sphere_loop_body diagnostics_due).count
        DriverEvent.interactorTimeStep = 1 ∧
    (flow_past_sphere_loop_body diagnostics_due).count
        DriverEvent.interactorApply = 1 ∧
    (flow_past_sphere_loop_body diagnostics_due).indexOf
        DriverEvent.interactorTimeStep <
      (flow_past_sphere_loop_body diagnostics_due).indexOf
        DriverEvent.interactorApply := by
  cases diagnostics_due <;> decide

/-- C6: the drag coefficient recorded by the driver equals the absolute sum
of the Lagrangian forcing field's x components divided by the
dynamic-pressure scale
`0.5 * rho_f * far_field_velocity^2 * sphere_projected_area` with
`sphere_projected_area = 0.25 * pi * sphere_diameter^2`. -/
theorem drag_coeff_eq_claimed (pi_val sphere_diameter : ℚ)
    (lag_grid_forcing_field : List (List ℚ)) :
    drag_coeff pi_val sphere_diameter lag_grid_forcing_field =
      drag_coeff_claimed pi_val sphere_diameter lag_grid_forcing_field :=
  rfl

/-- C7: the `element_position` array of the forcing grid keeps the shape
`(3, n_elems)` it was allocated with at construction, after any sequence of
`update_rod_element_position` calls (each of which writes it in place). -/
theorem element_position_shape_invariant (rod : CosseratRod) (s d : ℚ)
    (t : DType) (fi : CosseratRodFlowInteraction) (n : ℕ)
    (rodN : CosseratRod)
    (hinit : cosserat_rod_flow_interaction_init rod s d t = Except.ok fi)
    (hiter : iterate_update_rod_element_position n fi.cosserat_rod =
      some rodN) :
    ∃ ep, rodN.element_position = some ep ∧
      ep.map List.length = List.replicate 3 rod.n_elems := by
  obtain ⟨-, -, hepos, hlen, -, -, -, -, -, -, -⟩ :=
    cosserat_rod_flow_interaction_init_inv _ _ _ _ _ hinit
  exact iterate_update_shape n _ rodN _ hiter ⟨_, hepos, hlen⟩

/-- Witness for C7: two updates after construction on `sample_fresh_rod`
leave `element_position` with three rows of length 1. -/
theorem element_position_shape_invariant_witness :
    ∃ ep, sample_interaction.cosserat_rod.element_position = some ep ∧
      ep.map List.length = List.replicate 3 sample_fresh_rod.n_elems :=
  element_position_shape_invariant sample_fresh_rod (-1) (-1)
    DType.float64 sample_interaction 2 sample_interaction.cosserat_rod
    (by simp [cosserat_rod_flow_interaction_init, sample_fresh_rod,
        sample_interaction, update_rod_element_position, element_position_of,
        row_midpoints, slice_assign_all, np_zeros_mat, np_zeros,
        immersed_body_flow_interaction_sign_check]
        norm_num)
    (by simp [iterate_update_rod_element_position,
        update_rod_element_position, sample_interaction,
        element_position_of, row_midpoints, slice_assign_all])

/-- C8: zero-mismatch fixed point of the (spec-modelled) penalty forcing
law: if the marker velocity equals the interpolated fluid velocity and the
accumulated displacement error is zero, the computed marker forcing is
exactly zero. -/
theorem zero_mismatch_fixed_point (stiffness damping : ℚ)
    (displacement_error marker_velocity interpolated_velocity :
      Fin 3 → ℚ)
    (hv : marker_velocity = interpolated_velocity)
    (herr : displacement_error = fun _ => 0) :
    marker_penalty_forcing stiffness damping displacement_error
      marker_velocity interpolated_velocity = fun _ => 0 := by
  subst hv
  subst herr
  funext k
  simp [marker_penalty_forcing]

/-- Witness for C8 at the spec's concrete scenario coefficients. -/
theorem zero_mismatch_fixed_point_witness :
    marker_penalty_forcing (-100) (-10) (fun _ => 0) (fun _ => 1)
      (fun _ => 1) = fun _ => 0 :=
  zero_mismatch_fixed_point (-100) (-10) (fun _ => 0) (fun _ => 1)
    (fun _ => 1) rfl rfl

/-- C9: for every rod and every configured `real_t` precision (including
single precision), the body force and torque accumulators are allocated by
`np.zeros` with no dtype argument, hence have dtype `float64`. -/
theorem body_accumulators_dtype_float64 (rod : CosseratRod) (s d : ℚ)
    (real_t : DType) (fi : CosseratRodFlowInteraction)
    (h : cosserat_rod_flow_interaction_init rod s d real_t =
      Except.ok fi) :
    fi.body_flow_forces.dtype = DType.float64 ∧
    fi.body_flow_torques.dtype = DType.float64 := by
  obtain ⟨-, -, -, -, hf, ht, -, -, -, -, -⟩ :=
    cosserat_rod_flow_interaction_init_inv _ _ _ _ _ h
  rw [hf, ht]
  exact ⟨rfl, rfl⟩

/-- Witness for C9 with `real_t = np.float32`: the accumulators still come
out `float64`. -/
theorem body_accumulators_dtype_float64_witness :
    sample_interaction_f32.body_flow_forces.dtype = DType.float64 ∧
    sample_interaction_f32.body_flow_torques.dtype = DType.float64 :=
  body_accumulators_dtype_float64 sample_fresh_rod (-1) (-1)
    DType.float32 sample_interaction_f32
    (by simp [cosserat_rod_flow_interaction_init, sample_fresh_rod,
        sample_interaction_f32, sample_interaction,
        update_rod_element_position, element_position_of, row_midpoints,
        slice_assign_all, np_zeros_mat, np_zeros,
        immersed_body_flow_interaction_sign_check]
        norm_num)

/-- C10: `update_rod_element_position` is idempotent: a second call on the
state left by a successful call reproduces that state exactly, since the
update reads only `position_collection` (unchanged) and overwrites
`element_position` entirely. -/
theorem update_rod_element_position_idempotent (rod rod' : CosseratRod)
    (h : update_rod_element_position rod = some rod') :
    update_rod_element_position rod' = some rod' := by
  obtain ⟨hn, hp, hepos, -⟩ := update_rod_element_position_inv _ _ h
  have hself : rod'.element_position =
      some (element_position_of rod'.position_collection) := by
    rw [hp]
    exact hepos
  rw [update_rod_element_position_of_shape rod'
    (element_position_of rod'.position_collection) hself rfl]
  refine congrArg some (CosseratRod.ext_mk _ _ rfl rfl ?_)
  rw [hself]

/-- Witness for C10: a second update on `sample_rod_updated` is a no-op. -/
theorem update_rod_element_position_idempotent_witness :
    update_rod_element_position sample_rod_updated =
      some sample_rod_updated :=
  update_rod_element_position_idempotent sample_rod sample_rod_updated
    (by simp [update_rod_element_position, sample_rod, sample_rod_updated,
        element_position_of, row_midpoints, slice_assign_all]
        norm_num)
